import Mathlib

/-!
Verification of the assembly geometry analysis core of the onshape-mcp
repository (`src/onshape_mcp/analysis/interference.py` and
`src/onshape_mcp/analysis/positioning.py`), shallowly embedded in Lean 4.

Python floats are modelled as rationals (`ℚ`); all the geometry here is
closed-form field arithmetic with `min`/`max`, so the algebraic content is
preserved exactly.  Python dicts are modelled as association lists, Python
exceptions as `Except`/`Option`, and the two effectful collaborators
(`get_part_bounding_box` and the assembly data source) as explicit function
arguments; every call to the part-geometry source is recorded in an explicit
log so the call-count claims can be stated.
-/

namespace OnshapeMCP

/-- `METERS_TO_INCHES = 1.0 / 0.0254` from `interference.py`. -/
def METERS_TO_INCHES : ℚ := 1 / (254 / 10000)

/-- `INCHES_TO_METERS = 0.0254` from `positioning.py`. -/
def INCHES_TO_METERS : ℚ := 254 / 10000

/-- Axis-aligned bounding box in meters (`interference.py`, `BoundingBox`). -/
structure BoundingBox where
  low_x : ℚ
  low_y : ℚ
  low_z : ℚ
  high_x : ℚ
  high_y : ℚ
  high_z : ℚ
deriving DecidableEq, Repr

/-- Details about an overlap between two instances
(`interference.py`, `OverlapInfo`). -/
structure OverlapInfo where
  instance_a_name : String
  instance_a_id : String
  instance_b_name : String
  instance_b_id : String
  overlap_x_inches : ℚ
  overlap_y_inches : ℚ
  overlap_z_inches : ℚ
  overlap_volume_cubic_inches : ℚ
deriving DecidableEq, Repr

/-- Complete result of an interference check
(`interference.py`, `InterferenceResult`). -/
structure InterferenceResult where
  total_instances : Nat
  total_pairs_checked : Nat
  overlaps : List OverlapInfo
  warnings : List String
deriving DecidableEq, Repr

/-- `transform_point` from `interference.py`: apply a 4x4 row-major
transformation matrix (16-element flat list) to a 3D point, reading entries
`matrix[0]`..`matrix[11]`.  Out-of-range reads (the caller must supply 16
elements) are totalised with `getD _ 0`. -/
def transform_point (matrix : List ℚ) (point : ℚ × ℚ × ℚ) : ℚ × ℚ × ℚ :=
  let x := point.1
  let y := point.2.1
  let z := point.2.2
  (matrix.getD 0 0 * x + matrix.getD 1 0 * y + matrix.getD 2 0 * z + matrix.getD 3 0,
   matrix.getD 4 0 * x + matrix.getD 5 0 * y + matrix.getD 6 0 * z + matrix.getD 7 0,
   matrix.getD 8 0 * x + matrix.getD 9 0 * y + matrix.getD 10 0 * z + matrix.getD 11 0)

/-- The 8 corners of a local bounding box, in the order enumerated by
`get_world_aabb` in `interference.py`. -/
def corners (b : BoundingBox) : List (ℚ × ℚ × ℚ) :=
  [(b.low_x, b.low_y, b.low_z),
   (b.low_x, b.low_y, b.high_z),
   (b.low_x, b.high_y, b.low_z),
   (b.low_x, b.high_y, b.high_z),
   (b.high_x, b.low_y, b.low_z),
   (b.high_x, b.low_y, b.high_z),
   (b.high_x, b.high_y, b.low_z),
   (b.high_x, b.high_y, b.high_z)]

/-- Python `min` over a list (total: returns 0 on the empty list, which the
source never produces since it is only applied to the 8 corner coordinates). -/
def list_min : List ℚ → ℚ
  | [] => 0
  | a :: rest => rest.foldl min a

/-- Python `max` over a list (total: returns 0 on the empty list). -/
def list_max : List ℚ → ℚ
  | [] => 0
  | a :: rest => rest.foldl max a

/-- `get_world_aabb` from `interference.py`: transform all 8 corners of the
local box and take the componentwise min and max. -/
def get_world_aabb (local_bbox : BoundingBox) (transform : List ℚ) : BoundingBox :=
  let transformed := (corners local_bbox).map (fun c => transform_point transform c)
  let xs := transformed.map (fun p => p.1)
  let ys := transformed.map (fun p => p.2.1)
  let zs := transformed.map (fun p => p.2.2)
  { low_x := list_min xs, low_y := list_min ys, low_z := list_min zs,
    high_x := list_max xs, high_y := list_max ys, high_z := list_max zs }

/-- Default tolerance of `check_overlap` (`1e-8` meters). -/
def default_tolerance : ℚ := 1 / 100000000

/-- The local `overlap_x` of `check_overlap` in `interference.py`. -/
def overlap_x_of (box_a box_b : BoundingBox) : ℚ :=
  min box_a.high_x box_b.high_x - max box_a.low_x box_b.low_x

/-- The local `overlap_y` of `check_overlap` in `interference.py`. -/
def overlap_y_of (box_a box_b : BoundingBox) : ℚ :=
  min box_a.high_y box_b.high_y - max box_a.low_y box_b.low_y

/-- The local `overlap_z` of `check_overlap` in `interference.py`. -/
def overlap_z_of (box_a box_b : BoundingBox) : ℚ :=
  min box_a.high_z box_b.high_z - max box_a.low_z box_b.low_z

/-- `check_overlap` from `interference.py`: the per-axis overlaps if all three
exceed the tolerance, otherwise `none`. -/
def check_overlap (box_a box_b : BoundingBox) (tolerance : ℚ) :
    Option (ℚ × ℚ × ℚ) :=
  let overlap_x := overlap_x_of box_a box_b
  let overlap_y := overlap_y_of box_a box_b
  let overlap_z := overlap_z_of box_a box_b
  if overlap_x > tolerance ∧ overlap_y > tolerance ∧ overlap_z > tolerance then
    some (overlap_x, overlap_y, overlap_z)
  else none

/-- `FACE_NAMES` from `positioning.py` (a set, modelled as a list with
membership). -/
def FACE_NAMES : List String := ["front", "back", "left", "right", "top", "bottom"]

/-- `get_position_from_transform` from `positioning.py`: translation component
(entries 3, 7, 11) of a 16-element row-major transform. -/
def get_position_from_transform (transform : List ℚ) : ℚ × ℚ × ℚ :=
  (transform.getD 3 0, transform.getD 7 0, transform.getD 11 0)

/-- `build_absolute_translation_matrix` from `positioning.py`: identity
rotation, translation = the given inch coordinates converted to meters. -/
def build_absolute_translation_matrix (x_inches y_inches z_inches : ℚ) : List ℚ :=
  [1, 0, 0, x_inches * INCHES_TO_METERS,
   0, 1, 0, y_inches * INCHES_TO_METERS,
   0, 0, 1, z_inches * INCHES_TO_METERS,
   0, 0, 0, 1]

/-- A pure-translation 4x4 row-major matrix with translation in meters
(the shape of both the identity matrix and every matrix produced by
`build_absolute_translation_matrix`). -/
def translation_matrix (px py pz : ℚ) : List ℚ :=
  [1, 0, 0, px,
   0, 1, 0, py,
   0, 0, 1, pz,
   0, 0, 0, 1]

/-- The literal identity matrix `[1,0,0,0, 0,1,0,0, 0,0,1,0, 0,0,0,1]` used in
both `interference.py` and `positioning.py`. -/
def identity_transform : List ℚ :=
  [1, 0, 0, 0, 0, 1, 0, 0, 0, 0, 1, 0, 0, 0, 0, 1]

/-- `compute_aligned_position` from `positioning.py`: new absolute position
(meters) placing the source flush against the named face of the target's world
AABB.  The Python `ValueError` on an invalid face is modelled as `Except.error`
carrying a message naming the offending value. -/
def compute_aligned_position (source_local_bbox : BoundingBox)
    (source_current_pos_meters : ℚ × ℚ × ℚ) (target_world_aabb : BoundingBox)
    (face : String) : Except String (ℚ × ℚ × ℚ) :=
  if face ∉ FACE_NAMES then
    .error ("Invalid face " ++ face ++ ". Must be one of the six face names.")
  else
    let cur_x := source_current_pos_meters.1
    let cur_y := source_current_pos_meters.2.1
    let cur_z := source_current_pos_meters.2.2
    if face = "front" then
      .ok (cur_x, target_world_aabb.low_y - source_local_bbox.high_y, cur_z)
    else if face = "back" then
      .ok (cur_x, target_world_aabb.high_y - source_local_bbox.low_y, cur_z)
    else if face = "left" then
      .ok (target_world_aabb.low_x - source_local_bbox.high_x, cur_y, cur_z)
    else if face = "right" then
      .ok (target_world_aabb.high_x - source_local_bbox.low_x, cur_y, cur_z)
    else if face = "bottom" then
      .ok (cur_x, cur_y, target_world_aabb.low_z - source_local_bbox.high_z)
    else
      .ok (cur_x, cur_y, target_world_aabb.high_z - source_local_bbox.low_z)

/-- The world box of the source part after `align_to_face` applies the
absolute transform built (through the meters-to-inches round trip at
`positioning.py` lines 400-405) from an aligned position in meters. -/
def placed_world_box (source_local_bbox : BoundingBox) (pos : ℚ × ℚ × ℚ) :
    BoundingBox :=
  get_world_aabb source_local_bbox
    (build_absolute_translation_matrix (pos.1 * METERS_TO_INCHES)
      (pos.2.1 * METERS_TO_INCHES) (pos.2.2 * METERS_TO_INCHES))

/-! ## Assembly orchestration model

`check_assembly_interference`, `get_assembly_positions` and `align_to_face`
are async orchestrators over two collaborators.  The assembly definition is
passed as a parsed `AssemblyData` value (a fatal fetch failure simply
propagates and is not modelled), and the Part Geometry Source
`get_part_bounding_box` is a function from the per-part key to
`Option BoundingBox` (`none` = the call raises).  Every invocation of the
part-geometry source is appended to an explicit log so call counts can be
stated.  The `workspace_id` argument is a constant of each call and does not
participate in the cache key, so it is dropped from the fetch function. -/

/-- One assembly instance record (the fields of the Onshape instance dict
read by the analysis code). -/
structure AssemblyInstance where
  id : String
  name : String
  typ : String
  suppressed : Bool
  documentId : Option String
  elementId : Option String
  partId : Option String
deriving DecidableEq, Repr

/-- One occurrence record: a path of instance ids and a 16-element transform. -/
structure Occurrence where
  path : List String
  transform : List ℚ
deriving DecidableEq, Repr

/-- The `rootAssembly` payload consumed by the analysis code. -/
structure AssemblyData where
  instances : List AssemblyInstance
  occurrences : List Occurrence
deriving DecidableEq, Repr

/-- Cache key `(doc_id, elem_id, part_id)`; element and part ids are the raw
(possibly missing) dict values. -/
abbrev CacheKey := String × Option String × Option String

/-- Python truthiness test `not inst_elem_id` for an optional string:
missing or empty. -/
def isFalsy : Option String → Bool
  | none => true
  | some s => s = ""

/-- The key `(inst_doc_id, inst_elem_id, inst_part_id)` with the document id
defaulted to the assembly's own (`inst.get("documentId", document_id)`). -/
def instance_cache_key (document_id : String) (inst : AssemblyInstance) : CacheKey :=
  (inst.documentId.getD document_id, inst.elementId, inst.partId)

/-- Association-list lookup for the bounding-box cache dict. -/
def cache_lookup (key : CacheKey) : List (CacheKey × BoundingBox) → Option BoundingBox
  | [] => none
  | (k, v) :: rest => if k = key then some v else cache_lookup key rest

/-- Association-list lookup for the occurrence-transform dict. -/
def dict_lookup (key : String) : List (String × List ℚ) → Option (List ℚ)
  | [] => none
  | (k, v) :: rest => if k = key then some v else dict_lookup key rest

/-- Number of times `key` appears in a fetch log. -/
def key_count (key : CacheKey) : List CacheKey → Nat
  | [] => 0
  | k :: rest => (if k = key then 1 else 0) + key_count key rest

/-- The occurrence-transform map: `instance_id -> transform` for occurrences
whose path has length 1 (`interference.py` lines 176-180 and
`extract_occurrence_transforms` in `positioning.py`; later occurrences
overwrite earlier ones, as Python dict assignment does). -/
def build_occurrence_transforms (occurrences : List Occurrence) :
    List (String × List ℚ) :=
  occurrences.foldl
    (fun m occ =>
      match occ.path with
      | [iid] => (iid, occ.transform) :: m.filter (fun kv => kv.1 != iid)
      | _ => m)
    []

/-- The bounding-box cache together with the log of part-geometry fetches. -/
structure FetchState where
  cache : List (CacheKey × BoundingBox)
  log : List CacheKey
deriving Repr

/-- One iteration of the cache-population loop shared by
`check_assembly_interference` (`interference.py` lines 185-204) and
`get_assembly_positions` (`positioning.py` lines 214-230): skip non-Part or
suppressed instances and falsy element/part ids; fetch only on a cache miss;
on a failed fetch log a warning and leave the key uncached. -/
def fetch_bbox_step (fetch : CacheKey → Option BoundingBox) (document_id : String)
    (st : FetchState) (inst : AssemblyInstance) : FetchState :=
  if inst.typ != "Part" || inst.suppressed then st
  else if isFalsy inst.elementId || isFalsy inst.partId then st
  else
    let key := instance_cache_key document_id inst
    if (cache_lookup key st.cache).isSome then st
    else
      match fetch key with
      | some bbox => ⟨(key, bbox) :: st.cache, st.log ++ [key]⟩
      | none => ⟨st.cache, st.log ++ [key]⟩

/-- The whole cache-population loop. -/
def build_bbox_cache (fetch : CacheKey → Option BoundingBox) (document_id : String)
    (instances : List AssemblyInstance) : FetchState :=
  instances.foldl (fetch_bbox_step fetch document_id) ⟨[], []⟩

/-- The world-AABB loop of `check_assembly_interference` (lines 210-225):
pair each non-suppressed Part instance whose key is cached with its world
AABB under its occurrence transform (identity when absent). -/
def resolve_world_bboxes (cache : List (CacheKey × BoundingBox))
    (occ_transforms : List (String × List ℚ)) (document_id : String)
    (instances : List AssemblyInstance) : List (AssemblyInstance × BoundingBox) :=
  instances.foldl
    (fun acc inst =>
      if inst.typ != "Part" || inst.suppressed then acc
      else
        match cache_lookup (instance_cache_key document_id inst) cache with
        | none => acc
        | some local_bbox =>
          let transform := (dict_lookup inst.id occ_transforms).getD identity_transform
          acc ++ [(inst, get_world_aabb local_bbox transform)])
    []

/-- The i/j double loop order of `check_assembly_interference`: every
unordered pair with the earlier element first. -/
def all_pairs {α : Type} : List α → List (α × α)
  | [] => []
  | a :: rest => rest.map (fun b => (a, b)) ++ all_pairs rest

/-- `check_assembly_interference` from `interference.py`, returning the result
together with the log of part-geometry fetches. -/
def check_assembly_interference (fetch : CacheKey → Option BoundingBox)
    (document_id : String) (asm : AssemblyData) :
    InterferenceResult × List CacheKey :=
  if asm.instances.length < 2 then
    ({ total_instances := asm.instances.length,
       total_pairs_checked := 0,
       overlaps := [],
       warnings := ["Need at least 2 instances for interference check."] }, [])
  else
    let occ_transforms := build_occurrence_transforms asm.occurrences
    let st := build_bbox_cache fetch document_id asm.instances
    let world_bboxes :=
      resolve_world_bboxes st.cache occ_transforms document_id asm.instances
    let pairs := all_pairs world_bboxes
    let overlaps := pairs.filterMap
      (fun pr =>
        (check_overlap pr.1.2 pr.2.2 default_tolerance).map
          (fun o =>
            { instance_a_name := pr.1.1.name,
              instance_a_id := pr.1.1.id,
              instance_b_name := pr.2.1.name,
              instance_b_id := pr.2.1.id,
              overlap_x_inches := o.1 * METERS_TO_INCHES,
              overlap_y_inches := o.2.1 * METERS_TO_INCHES,
              overlap_z_inches := o.2.2 * METERS_TO_INCHES,
              overlap_volume_cubic_inches :=
                o.1 * METERS_TO_INCHES * (o.2.1 * METERS_TO_INCHES) *
                  (o.2.2 * METERS_TO_INCHES) }))
    ({ total_instances := world_bboxes.length,
       total_pairs_checked := pairs.length,
       overlaps := overlaps,
       warnings := [] }, st.log)

/-- Sample Part instance records sharing one physical part key. -/
def samplePartInstance (iid : String) : AssemblyInstance :=
  { id := iid, name := "P", typ := "Part", suppressed := false,
    documentId := none, elementId := some "e", partId := some "p" }

/-- The cache key shared by all `samplePartInstance` records under
document `"d"`. -/
def sampleKey : CacheKey := ("d", some "e", some "p")

/-- A part-geometry source whose every call succeeds with a unit box. -/
def sample_fetch_ok : CacheKey → Option BoundingBox := fun _ => some ⟨0, 0, 0, 1, 1, 1⟩

/-- A part-geometry source whose every call raises. -/
def sample_fetch_fail : CacheKey → Option BoundingBox := fun _ => none

/-- An assembly with a single instance. -/
def sample_asm_one : AssemblyData := ⟨[samplePartInstance "i1"], []⟩

/-- An assembly with two instances of the same physical part. -/
def sample_asm_two : AssemblyData :=
  ⟨[samplePartInstance "i1", samplePartInstance "i2"], []⟩

/-! ## `align_to_face` (positioning.py) -/

/-- The externally visible calls `align_to_face` can make, in order. -/
inductive ApiEvent where
  | getAssembly
  | getBbox (key : CacheKey)
  | transformOcc
deriving DecidableEq, Repr

/-- The failure modes of `align_to_face`.  The first three model the
`ValueError`s raised by validation (each carries the offending value its
Python message names); `bboxFetchFailed` models a propagated part-geometry
fetch failure. -/
inductive AlignError where
  | invalidFace (face : String)
  | sourceNotFound (id : String)
  | targetNotFound (id : String)
  | bboxFetchFailed (key : CacheKey)
deriving DecidableEq, Repr

/-- `True` exactly on the validation `ValueError`s of `align_to_face`. -/
def result_is_validation_error : Except AlignError (ℚ × ℚ × ℚ) → Bool
  | .error (.invalidFace _) => true
  | .error (.sourceNotFound _) => true
  | .error (.targetNotFound _) => true
  | _ => false

/-- Python `str.lower` on one character (ASCII range; the face names involved
are ASCII). -/
def py_lower_char (c : Char) : Char :=
  if 65 ≤ c.toNat ∧ c.toNat ≤ 90 then Char.ofNat (c.toNat + 32) else c

/-- Python default `str.strip` whitespace. -/
def py_is_space (c : Char) : Bool :=
  c = ' ' || c = '\t' || c = '\n' || c = '\r' || c = '\x0b' || c = '\x0c'

/-- `face.lower().strip()` from `align_to_face`. -/
def py_lower_strip (s : String) : String :=
  String.mk ((((s.data.map py_lower_char).dropWhile py_is_space).reverse.dropWhile
    py_is_space).reverse)

/-- The instance-search loop of `align_to_face` (lines 352-356): scan the
whole list, the last matching instance wins. -/
def find_instance (instances : List AssemblyInstance) (iid : String) :
    Option AssemblyInstance :=
  instances.foldl (fun acc inst => if inst.id = iid then some inst else acc) none

/-- `align_to_face` from `positioning.py`, returning the computed new position
(in meters; the confirmation string formats it) or the error, together with
the ordered log of external calls.  The face is lowercased and trimmed, then
validated before any external call; source and target are resolved after the
assembly-definition fetch but before any bounding-box fetch; the mutating
`transform_occurrences` call happens only after everything else succeeded. -/
def align_to_face (fetch : CacheKey → Option BoundingBox) (document_id : String)
    (asm : AssemblyData) (source_instance_id target_instance_id face : String) :
    Except AlignError (ℚ × ℚ × ℚ) × List ApiEvent :=
  let f := py_lower_strip face
  if f ∉ FACE_NAMES then (.error (.invalidFace f), [])
  else
    let occ_transforms := build_occurrence_transforms asm.occurrences
    match find_instance asm.instances source_instance_id with
    | none => (.error (.sourceNotFound source_instance_id), [.getAssembly])
    | some source_inst =>
      match find_instance asm.instances target_instance_id with
      | none => (.error (.targetNotFound target_instance_id), [.getAssembly])
      | some target_inst =>
        let s_key := instance_cache_key document_id source_inst
        let t_key := instance_cache_key document_id target_inst
        match fetch s_key with
        | none => (.error (.bboxFetchFailed s_key), [.getAssembly, .getBbox s_key])
        | some source_local_bbox =>
          match fetch t_key with
          | none => (.error (.bboxFetchFailed t_key),
              [.getAssembly, .getBbox s_key, .getBbox t_key])
          | some target_local_bbox =>
            let target_transform :=
              (dict_lookup target_instance_id occ_transforms).getD identity_transform
            let target_world_aabb := get_world_aabb target_local_bbox target_transform
            let source_transform :=
              (dict_lookup source_instance_id occ_transforms).getD identity_transform
            let source_current_pos := get_position_from_transform source_transform
            match compute_aligned_position source_local_bbox source_current_pos
                target_world_aabb f with
            | .error _ => (.error (.invalidFace f),
                [.getAssembly, .getBbox s_key, .getBbox t_key])
            | .ok new_pos =>
              (.ok new_pos,
               [.getAssembly, .getBbox s_key, .getBbox t_key, .transformOcc])

/-! ## Helper lemmas -/

lemma foldl_min_le_init (l : List ℚ) (a : ℚ) : l.foldl min a ≤ a := by
  induction l generalizing a with
  | nil => exact le_refl a
  | cons b t ih => exact le_trans (ih (min a b)) (min_le_left a b)

lemma foldl_min_le_mem (l : List ℚ) (a x : ℚ) (hx : x ∈ l) : l.foldl min a ≤ x := by
  induction l generalizing a with
  | nil => cases hx
  | cons b t ih =>
    rcases List.mem_cons.mp hx with rfl | h
    · exact le_trans (foldl_min_le_init t (min a x)) (min_le_right a x)
    · exact ih (min a b) h

lemma list_min_le_of_mem (l : List ℚ) (x : ℚ) (hx : x ∈ l) : list_min l ≤ x := by
  cases l with
  | nil => cases hx
  | cons a rest =>
    rcases List.mem_cons.mp hx with rfl | h
    · exact foldl_min_le_init rest x
    · exact foldl_min_le_mem rest a x h

lemma le_foldl_max_init (l : List ℚ) (a : ℚ) : a ≤ l.foldl max a := by
  induction l generalizing a with
  | nil => exact le_refl a
  | cons b t ih => exact le_trans (le_max_left a b) (ih (max a b))

lemma le_foldl_max_mem (l : List ℚ) (a x : ℚ) (hx : x ∈ l) : x ≤ l.foldl max a := by
  induction l generalizing a with
  | nil => cases hx
  | cons b t ih =>
    rcases List.mem_cons.mp hx with rfl | h
    · exact le_trans (le_max_right a x) (le_foldl_max_init t (max a x))
    · exact ih (max a b) h

lemma le_list_max_of_mem (l : List ℚ) (x : ℚ) (hx : x ∈ l) : x ≤ list_max l := by
  cases l with
  | nil => cases hx
  | cons a rest =>
    rcases List.mem_cons.mp hx with rfl | h
    · exact le_foldl_max_init rest x
    · exact le_foldl_max_mem rest a x h

lemma transform_point_translation (px py pz x y z : ℚ) :
    transform_point (translation_matrix px py pz) (x, y, z) = (x + px, y + py, z + pz) := by
  norm_num [transform_point, translation_matrix]

/-- Applying a pure-translation matrix to a well-formed box shifts both
corners by the translation. -/
lemma get_world_aabb_translation (b : BoundingBox) (px py pz : ℚ)
    (hx : b.low_x ≤ b.high_x) (hy : b.low_y ≤ b.high_y) (hz : b.low_z ≤ b.high_z) :
    get_world_aabb b (translation_matrix px py pz) =
      ⟨b.low_x + px, b.low_y + py, b.low_z + pz,
       b.high_x + px, b.high_y + py, b.high_z + pz⟩ := by
  have hx' : b.low_x + px ≤ b.high_x + px := add_le_add_right hx px
  have hy' : b.low_y + py ≤ b.high_y + py := add_le_add_right hy py
  have hz' : b.low_z + pz ≤ b.high_z + pz := add_le_add_right hz pz
  simp only [get_world_aabb, corners, List.map_cons, List.map_nil,
    transform_point_translation]
  simp [list_min, list_max, min_self, max_self,
    min_eq_left hx', min_eq_left hy', min_eq_left hz',
    max_eq_right hx', max_eq_right hy', max_eq_right hz',
    max_eq_left hx', max_eq_left hy', max_eq_left hz']

lemma identity_transform_eq : identity_transform = translation_matrix 0 0 0 := rfl

lemma check_overlap_none_x (a b : BoundingBox) (tol : ℚ)
    (h : overlap_x_of a b ≤ tol) : check_overlap a b tol = none := by
  simp only [check_overlap]
  rw [if_neg]
  intro hcon
  exact absurd hcon.1 (not_lt.mpr h)

lemma check_overlap_none_y (a b : BoundingBox) (tol : ℚ)
    (h : overlap_y_of a b ≤ tol) : check_overlap a b tol = none := by
  simp only [check_overlap]
  rw [if_neg]
  intro hcon
  exact absurd hcon.2.1 (not_lt.mpr h)

lemma check_overlap_none_z (a b : BoundingBox) (tol : ℚ)
    (h : overlap_z_of a b ≤ tol) : check_overlap a b tol = none := by
  simp only [check_overlap]
  rw [if_neg]
  intro hcon
  exact absurd hcon.2.2 (not_lt.mpr h)

/-- The six face cases of `compute_aligned_position`, evaluated. -/
lemma compute_aligned_position_eq (s : BoundingBox) (p : ℚ × ℚ × ℚ) (t : BoundingBox) :
    compute_aligned_position s p t "front" = .ok (p.1, t.low_y - s.high_y, p.2.2) ∧
    compute_aligned_position s p t "back" = .ok (p.1, t.high_y - s.low_y, p.2.2) ∧
    compute_aligned_position s p t "left" = .ok (t.low_x - s.high_x, p.2.1, p.2.2) ∧
    compute_aligned_position s p t "right" = .ok (t.high_x - s.low_x, p.2.1, p.2.2) ∧
    compute_aligned_position s p t "bottom" = .ok (p.1, p.2.1, t.low_z - s.high_z) ∧
    compute_aligned_position s p t "top" = .ok (p.1, p.2.1, t.high_z - s.low_z) := by
  refine ⟨?_, ?_, ?_, ?_, ?_, ?_⟩ <;> simp +decide [compute_aligned_position, FACE_NAMES]

/-- `build_absolute_translation_matrix` applied to a meter position converted
to inches is the pure translation by that meter position (exact in `ℚ`). -/
lemma placed_world_box_eq (s : BoundingBox) (q : ℚ × ℚ × ℚ)
    (hx : s.low_x ≤ s.high_x) (hy : s.low_y ≤ s.high_y) (hz : s.low_z ≤ s.high_z) :
    placed_world_box s q =
      ⟨s.low_x + q.1, s.low_y + q.2.1, s.low_z + q.2.2,
       s.high_x + q.1, s.high_y + q.2.1, s.high_z + q.2.2⟩ := by
  have key : ∀ x : ℚ, x * METERS_TO_INCHES * INCHES_TO_METERS = x := by
    intro x
    rw [mul_assoc]
    norm_num [METERS_TO_INCHES, INCHES_TO_METERS]
  have hb : build_absolute_translation_matrix (q.1 * METERS_TO_INCHES)
      (q.2.1 * METERS_TO_INCHES) (q.2.2 * METERS_TO_INCHES) =
      translation_matrix q.1 q.2.1 q.2.2 := by
    simp [build_absolute_translation_matrix, translation_matrix, key]
  rw [placed_world_box, hb, get_world_aabb_translation s _ _ _ hx hy hz]

lemma key_count_append (key : CacheKey) (l1 l2 : List CacheKey) :
    key_count key (l1 ++ l2) = key_count key l1 + key_count key l2 := by
  induction l1 with
  | nil => simp [key_count]
  | cons a t ih => simp [key_count, ih, Nat.add_assoc]

/-- One cache-loop step preserves the invariant "`key` was fetched at most
once, and if it is not cached it was never successfully fetched", provided a
fetch of `key` succeeds. -/
lemma fetch_bbox_step_invariant (fetch : CacheKey → Option BoundingBox)
    (doc : String) (key : CacheKey) (hk : (fetch key).isSome = true)
    (st : FetchState) (inst : AssemblyInstance)
    (h1 : key_count key st.log ≤ 1)
    (h2 : cache_lookup key st.cache = none → key_count key st.log = 0) :
    key_count key (fetch_bbox_step fetch doc st inst).log ≤ 1 ∧
    (cache_lookup key (fetch_bbox_step fetch doc st inst).cache = none →
      key_count key (fetch_bbox_step fetch doc st inst).log = 0) := by
  cases hb : (inst.typ != "Part" || inst.suppressed) with
  | true =>
    rw [show fetch_bbox_step fetch doc st inst = st by simp [fetch_bbox_step, hb]]
    exact ⟨h1, h2⟩
  | false =>
  cases hf : (isFalsy inst.elementId || isFalsy inst.partId) with
  | true =>
    rw [show fetch_bbox_step fetch doc st inst = st by simp [fetch_bbox_step, hb, hf]]
    exact ⟨h1, h2⟩
  | false =>
  cases hmiss : cache_lookup (instance_cache_key doc inst) st.cache with
  | some v =>
    rw [show fetch_bbox_step fetch doc st inst = st by
      simp [fetch_bbox_step, hb, hf, hmiss]]
    exact ⟨h1, h2⟩
  | none =>
  cases hfetch : fetch (instance_cache_key doc inst) with
  | some bbox =>
    have hstep : fetch_bbox_step fetch doc st inst =
        ⟨(instance_cache_key doc inst, bbox) :: st.cache,
          st.log ++ [instance_cache_key doc inst]⟩ := by
      simp [fetch_bbox_step, hb, hf, hmiss, hfetch]
    rw [hstep]
    by_cases hkey : instance_cache_key doc inst = key
    · rw [hkey] at hmiss
      have hc0 : key_count key st.log = 0 := h2 hmiss
      constructor
      · simp [key_count_append, key_count, hkey, hc0]
      · intro hcontra
        rw [hkey] at hcontra
        simp [cache_lookup] at hcontra
    · constructor
      · simpa [key_count_append, key_count, hkey] using h1
      · intro hnc
        have hnc' : cache_lookup key st.cache = none := by
          simpa [cache_lookup, hkey] using hnc
        simpa [key_count_append, key_count, hkey] using h2 hnc'
  | none =>
    have hstep : fetch_bbox_step fetch doc st inst =
        ⟨st.cache, st.log ++ [instance_cache_key doc inst]⟩ := by
      simp [fetch_bbox_step, hb, hf, hmiss, hfetch]
    by_cases hkey : instance_cache_key doc inst = key
    · rw [hkey] at hfetch
      rw [hfetch] at hk
      cases hk
    · rw [hstep]
      constructor
      · simpa [key_count_append, key_count, hkey] using h1
      · intro hnc
        simpa [key_count_append, key_count, hkey] using h2 hnc

/-- The cache-loop invariant carried through the whole instance list. -/
lemma build_bbox_cache_invariant (fetch : CacheKey → Option BoundingBox)
    (doc : String) (key : CacheKey) (hk : (fetch key).isSome = true) :
    ∀ (instances : List AssemblyInstance) (st : FetchState),
      key_count key st.log ≤ 1 →
      (cache_lookup key st.cache = none → key_count key st.log = 0) →
      key_count key (instances.foldl (fetch_bbox_step fetch doc) st).log ≤ 1 ∧
      (cache_lookup key
          (instances.foldl (fetch_bbox_step fetch doc) st).cache = none →
        key_count key (instances.foldl (fetch_bbox_step fetch doc) st).log = 0) := by
  intro instances
  induction instances with
  | nil => intro st h1 h2; exact ⟨h1, h2⟩
  | cons inst rest ih =>
    intro st h1 h2
    rw [List.foldl_cons]
    obtain ⟨h1', h2'⟩ := fetch_bbox_step_invariant fetch doc key hk st inst h1 h2
    exact ih _ h1' h2'

lemma length_all_pairs {α : Type} (l : List α) :
    (all_pairs l).length = Nat.choose l.length 2 := by
  induction l with
  | nil => rfl
  | cons a t ih =>
    simp [all_pairs, ih, Nat.choose_succ_succ, Nat.choose_one_right]

/-- On a valid face name `compute_aligned_position` always succeeds. -/
lemma compute_aligned_position_isOk (s : BoundingBox) (p : ℚ × ℚ × ℚ)
    (t : BoundingBox) (face : String) (hf : face ∈ FACE_NAMES) :
    ∃ q, compute_aligned_position s p t face = .ok q := by
  obtain ⟨e1, e2, e3, e4, e5, e6⟩ := compute_aligned_position_eq s p t
  simp only [FACE_NAMES, List.mem_cons, List.mem_singleton, List.not_mem_nil,
    or_false] at hf
  rcases hf with rfl | rfl | rfl | rfl | rfl | rfl
  · exact ⟨_, e1⟩
  · exact ⟨_, e2⟩
  · exact ⟨_, e3⟩
  · exact ⟨_, e4⟩
  · exact ⟨_, e6⟩
  · exact ⟨_, e5⟩

/-! ## Claims -/

/-- C1 (amended): in both engines' shared cache loop, and hence in the whole
`check_assembly_interference` call, a key whose bounding-box fetch succeeds
is fetched at most once, no matter how many instances share it.  (When the
fetch for a key fails the key stays uncached and later instances with the
same key re-fetch it, which is what forces the amendment.) -/
theorem claim_C1_at_most_one_fetch (fetch : CacheKey → Option BoundingBox)
    (doc : String) (asm : AssemblyData) (key : CacheKey)
    (hk : (fetch key).isSome = true) :
    key_count key (build_bbox_cache fetch doc asm.instances).log ≤ 1 ∧
    key_count key (check_assembly_interference fetch doc asm).2 ≤ 1 := by
  have hbase := build_bbox_cache_invariant fetch doc key hk asm.instances ⟨[], []⟩
    (by simp [key_count]) (fun _ => by simp [key_count])
  refine ⟨hbase.1, ?_⟩
  by_cases h : asm.instances.length < 2
  · simp [check_assembly_interference, h, key_count]
  · simpa [check_assembly_interference, h, build_bbox_cache] using hbase.1

/-- Witness for C1 (amended): two instances of the same part with a
succeeding fetch trigger at most one call. -/
theorem claim_C1_witness :
    (sample_fetch_ok sampleKey).isSome = true ∧
    (key_count sampleKey (build_bbox_cache sample_fetch_ok "d"
        sample_asm_two.instances).log ≤ 1 ∧
      key_count sampleKey (check_assembly_interference sample_fetch_ok "d"
        sample_asm_two).2 ≤ 1) :=
  ⟨rfl, claim_C1_at_most_one_fetch sample_fetch_ok "d" sample_asm_two sampleKey rfl⟩

/-- Counterexample to C1 as stated: when the fetch for a key fails, a second
instance with the same key triggers a second fetch — the whole
`check_assembly_interference` call invokes the part-geometry source twice for
one key, so "at most once ... regardless of whether any invocation for that
key fails" is false. -/
theorem claim_C1_counterexample :
    key_count sampleKey
        (check_assembly_interference sample_fetch_fail "d" sample_asm_two).2 = 2 ∧
    ¬ key_count sampleKey
        (check_assembly_interference sample_fetch_fail "d" sample_asm_two).2 ≤ 1 := by
  decide

/-- C2 (amended): when the raw instance list has fewer than 2 entries,
`check_assembly_interference` returns immediately with zero pairs checked, the
explanatory warning, and no part-geometry fetch at all. -/
theorem claim_C2_early_return (fetch : CacheKey → Option BoundingBox)
    (doc : String) (asm : AssemblyData) (h : asm.instances.length < 2) :
    (check_assembly_interference fetch doc asm).1.total_pairs_checked = 0 ∧
    (check_assembly_interference fetch doc asm).1.warnings =
      ["Need at least 2 instances for interference check."] ∧
    (check_assembly_interference fetch doc asm).1.warnings ≠ [] ∧
    (check_assembly_interference fetch doc asm).2 = [] := by
  simp [check_assembly_interference, h]

/-- Witness for C2 (amended) on a one-instance assembly. -/
theorem claim_C2_witness :
    sample_asm_one.instances.length < 2 ∧
    ((check_assembly_interference sample_fetch_fail "d" sample_asm_one).1.total_pairs_checked = 0 ∧
      (check_assembly_interference sample_fetch_fail "d" sample_asm_one).1.warnings =
        ["Need at least 2 instances for interference check."] ∧
      (check_assembly_interference sample_fetch_fail "d" sample_asm_one).1.warnings ≠ [] ∧
      (check_assembly_interference sample_fetch_fail "d" sample_asm_one).2 = []) :=
  ⟨by decide,
   claim_C2_early_return sample_fetch_fail "d" sample_asm_one (by decide)⟩

/-- Counterexample to C2 as stated: an assembly whose two raw instances both
fail to resolve to a world AABB (their bounding-box fetches raise) has fewer
than 2 resolvable instances, yet the short-circuit does not fire: the
warnings list is empty and the part-geometry source is called. -/
theorem claim_C2_counterexample :
    (resolve_world_bboxes
        (build_bbox_cache sample_fetch_fail "d" sample_asm_two.instances).cache
        (build_occurrence_transforms sample_asm_two.occurrences) "d"
        sample_asm_two.instances).length < 2 ∧
    (check_assembly_interference sample_fetch_fail "d" sample_asm_two).1.warnings = [] ∧
    (check_assembly_interference sample_fetch_fail "d" sample_asm_two).2 ≠ [] := by
  decide

/-- C3: for every face name, every source local bounding box, source current
position and target world AABB, `compute_aligned_position` changes only the
coordinate on the axis perpendicular to the face (Y for front/back, X for
left/right, Z for bottom/top), setting it to `target.low - source.high` for
front/left/bottom and `target.high - source.low` for back/right/top, and
returns the source's other two current coordinates unchanged. -/
theorem claim_C3_face_alignment_axes (s : BoundingBox) (p : ℚ × ℚ × ℚ)
    (t : BoundingBox) :
    compute_aligned_position s p t "front" = .ok (p.1, t.low_y - s.high_y, p.2.2) ∧
    compute_aligned_position s p t "back" = .ok (p.1, t.high_y - s.low_y, p.2.2) ∧
    compute_aligned_position s p t "left" = .ok (t.low_x - s.high_x, p.2.1, p.2.2) ∧
    compute_aligned_position s p t "right" = .ok (t.high_x - s.low_x, p.2.1, p.2.2) ∧
    compute_aligned_position s p t "bottom" = .ok (p.1, p.2.1, t.low_z - s.high_z) ∧
    compute_aligned_position s p t "top" = .ok (p.1, p.2.1, t.high_z - s.low_z) :=
  compute_aligned_position_eq s p t

/-- C4: for every valid face and well-formed source and target boxes, the
position returned by `compute_aligned_position` places the source's world box
(the local box run through the absolute translation matrix that
`align_to_face` builds) exactly touching the named face of the target, with no
overlap at the default tolerance. -/
theorem claim_C4_alignment_touches_without_overlap (s t : BoundingBox)
    (p : ℚ × ℚ × ℚ)
    (hsx : s.low_x ≤ s.high_x) (hsy : s.low_y ≤ s.high_y) (hsz : s.low_z ≤ s.high_z)
    (htx : t.low_x ≤ t.high_x) (hty : t.low_y ≤ t.high_y) (htz : t.low_z ≤ t.high_z) :
    (compute_aligned_position s p t "front" = .ok (p.1, t.low_y - s.high_y, p.2.2) ∧
      (placed_world_box s (p.1, t.low_y - s.high_y, p.2.2)).high_y = t.low_y ∧
      check_overlap (placed_world_box s (p.1, t.low_y - s.high_y, p.2.2)) t
        default_tolerance = none) ∧
    (compute_aligned_position s p t "back" = .ok (p.1, t.high_y - s.low_y, p.2.2) ∧
      (placed_world_box s (p.1, t.high_y - s.low_y, p.2.2)).low_y = t.high_y ∧
      check_overlap (placed_world_box s (p.1, t.high_y - s.low_y, p.2.2)) t
        default_tolerance = none) ∧
    (compute_aligned_position s p t "left" = .ok (t.low_x - s.high_x, p.2.1, p.2.2) ∧
      (placed_world_box s (t.low_x - s.high_x, p.2.1, p.2.2)).high_x = t.low_x ∧
      check_overlap (placed_world_box s (t.low_x - s.high_x, p.2.1, p.2.2)) t
        default_tolerance = none) ∧
    (compute_aligned_position s p t "right" = .ok (t.high_x - s.low_x, p.2.1, p.2.2) ∧
      (placed_world_box s (t.high_x - s.low_x, p.2.1, p.2.2)).low_x = t.high_x ∧
      check_overlap (placed_world_box s (t.high_x - s.low_x, p.2.1, p.2.2)) t
        default_tolerance = none) ∧
    (compute_aligned_position s p t "bottom" = .ok (p.1, p.2.1, t.low_z - s.high_z) ∧
      (placed_world_box s (p.1, p.2.1, t.low_z - s.high_z)).high_z = t.low_z ∧
      check_overlap (placed_world_box s (p.1, p.2.1, t.low_z - s.high_z)) t
        default_tolerance = none) ∧
    (compute_aligned_position s p t "top" = .ok (p.1, p.2.1, t.high_z - s.low_z) ∧
      (placed_world_box s (p.1, p.2.1, t.high_z - s.low_z)).low_z = t.high_z ∧
      check_overlap (placed_world_box s (p.1, p.2.1, t.high_z - s.low_z)) t
        default_tolerance = none) := by
  obtain ⟨e1, e2, e3, e4, e5, e6⟩ := compute_aligned_position_eq s p t
  have hq : ∀ q : ℚ × ℚ × ℚ, placed_world_box s q =
      ⟨s.low_x + q.1, s.low_y + q.2.1, s.low_z + q.2.2,
       s.high_x + q.1, s.high_y + q.2.1, s.high_z + q.2.2⟩ :=
    fun q => placed_world_box_eq s q hsx hsy hsz
  refine ⟨⟨e1, ?_, ?_⟩, ⟨e2, ?_, ?_⟩, ⟨e3, ?_, ?_⟩, ⟨e4, ?_, ?_⟩, ⟨e5, ?_, ?_⟩,
    ⟨e6, ?_, ?_⟩⟩
  · rw [hq]
    show s.high_y + (t.low_y - s.high_y) = t.low_y
    ring
  · rw [hq]
    apply check_overlap_none_y
    simp only [overlap_y_of, default_tolerance]
    have h1 := min_le_left (s.high_y + (t.low_y - s.high_y)) t.high_y
    have h2 := le_max_right (s.low_y + (t.low_y - s.high_y)) t.low_y
    linarith
  · rw [hq]
    show s.low_y + (t.high_y - s.low_y) = t.high_y
    ring
  · rw [hq]
    apply check_overlap_none_y
    simp only [overlap_y_of, default_tolerance]
    have h1 := min_le_right (s.high_y + (t.high_y - s.low_y)) t.high_y
    have h2 := le_max_left (s.low_y + (t.high_y - s.low_y)) t.low_y
    linarith
  · rw [hq]
    show s.high_x + (t.low_x - s.high_x) = t.low_x
    ring
  · rw [hq]
    apply check_overlap_none_x
    simp only [overlap_x_of, default_tolerance]
    have h1 := min_le_left (s.high_x + (t.low_x - s.high_x)) t.high_x
    have h2 := le_max_right (s.low_x + (t.low_x - s.high_x)) t.low_x
    linarith
  · rw [hq]
    show s.low_x + (t.high_x - s.low_x) = t.high_x
    ring
  · rw [hq]
    apply check_overlap_none_x
    simp only [overlap_x_of, default_tolerance]
    have h1 := min_le_right (s.high_x + (t.high_x - s.low_x)) t.high_x
    have h2 := le_max_left (s.low_x + (t.high_x - s.low_x)) t.low_x
    linarith
  · rw [hq]
    show s.high_z + (t.low_z - s.high_z) = t.low_z
    ring
  · rw [hq]
    apply check_overlap_none_z
    simp only [overlap_z_of, default_tolerance]
    have h1 := min_le_left (s.high_z + (t.low_z - s.high_z)) t.high_z
    have h2 := le_max_right (s.low_z + (t.low_z - s.high_z)) t.low_z
    linarith
  · rw [hq]
    show s.low_z + (t.high_z - s.low_z) = t.high_z
    ring
  · rw [hq]
    apply check_overlap_none_z
    simp only [overlap_z_of, default_tolerance]
    have h1 := min_le_right (s.high_z + (t.high_z - s.low_z)) t.high_z
    have h2 := le_max_left (s.low_z + (t.high_z - s.low_z)) t.low_z
    linarith

/-- Witness for C4 at a unit source box, a 2x2x2 target box and current
position (0,0,0). -/
theorem claim_C4_witness :
    (((0 : ℚ) ≤ 1 ∧ (0 : ℚ) ≤ 1 ∧ (0 : ℚ) ≤ 1) ∧
      ((0 : ℚ) ≤ 2 ∧ (0 : ℚ) ≤ 2 ∧ (0 : ℚ) ≤ 2)) ∧
    ((compute_aligned_position ⟨0, 0, 0, 1, 1, 1⟩ (0, 0, 0) ⟨0, 0, 0, 2, 2, 2⟩ "front" =
        .ok (0, 0 - 1, 0) ∧
      (placed_world_box ⟨0, 0, 0, 1, 1, 1⟩ (0, 0 - 1, 0)).high_y = 0 ∧
      check_overlap (placed_world_box ⟨0, 0, 0, 1, 1, 1⟩ (0, 0 - 1, 0)) ⟨0, 0, 0, 2, 2, 2⟩
        default_tolerance = none) ∧
    (compute_aligned_position ⟨0, 0, 0, 1, 1, 1⟩ (0, 0, 0) ⟨0, 0, 0, 2, 2, 2⟩ "back" =
        .ok (0, 2 - 0, 0) ∧
      (placed_world_box ⟨0, 0, 0, 1, 1, 1⟩ (0, 2 - 0, 0)).low_y = 2 ∧
      check_overlap (placed_world_box ⟨0, 0, 0, 1, 1, 1⟩ (0, 2 - 0, 0)) ⟨0, 0, 0, 2, 2, 2⟩
        default_tolerance = none) ∧
    (compute_aligned_position ⟨0, 0, 0, 1, 1, 1⟩ (0, 0, 0) ⟨0, 0, 0, 2, 2, 2⟩ "left" =
        .ok (0 - 1, 0, 0) ∧
      (placed_world_box ⟨0, 0, 0, 1, 1, 1⟩ (0 - 1, 0, 0)).high_x = 0 ∧
      check_overlap (placed_world_box ⟨0, 0, 0, 1, 1, 1⟩ (0 - 1, 0, 0)) ⟨0, 0, 0, 2, 2, 2⟩
        default_tolerance = none) ∧
    (compute_aligned_position ⟨0, 0, 0, 1, 1, 1⟩ (0, 0, 0) ⟨0, 0, 0, 2, 2, 2⟩ "right" =
        .ok (2 - 0, 0, 0) ∧
      (placed_world_box ⟨0, 0, 0, 1, 1, 1⟩ (2 - 0, 0, 0)).low_x = 2 ∧
      check_overlap (placed_world_box ⟨0, 0, 0, 1, 1, 1⟩ (2 - 0, 0, 0)) ⟨0, 0, 0, 2, 2, 2⟩
        default_tolerance = none) ∧
    (compute_aligned_position ⟨0, 0, 0, 1, 1, 1⟩ (0, 0, 0) ⟨0, 0, 0, 2, 2, 2⟩ "bottom" =
        .ok (0, 0, 0 - 1) ∧
      (placed_world_box ⟨0, 0, 0, 1, 1, 1⟩ (0, 0, 0 - 1)).high_z = 0 ∧
      check_overlap (placed_world_box ⟨0, 0, 0, 1, 1, 1⟩ (0, 0, 0 - 1)) ⟨0, 0, 0, 2, 2, 2⟩
        default_tolerance = none) ∧
    (compute_aligned_position ⟨0, 0, 0, 1, 1, 1⟩ (0, 0, 0) ⟨0, 0, 0, 2, 2, 2⟩ "top" =
        .ok (0, 0, 2 - 0) ∧
      (placed_world_box ⟨0, 0, 0, 1, 1, 1⟩ (0, 0, 2 - 0)).low_z = 2 ∧
      check_overlap (placed_world_box ⟨0, 0, 0, 1, 1, 1⟩ (0, 0, 2 - 0)) ⟨0, 0, 0, 2, 2, 2⟩
        default_tolerance = none)) :=
  ⟨⟨⟨by norm_num, by norm_num, by norm_num⟩, ⟨by norm_num, by norm_num, by norm_num⟩⟩,
   claim_C4_alignment_touches_without_overlap ⟨0, 0, 0, 1, 1, 1⟩ ⟨0, 0, 0, 2, 2, 2⟩
     (0, 0, 0) (by norm_num) (by norm_num) (by norm_num) (by norm_num) (by norm_num)
     (by norm_num)⟩

/-- C5: `check_overlap` returns the triple of per-axis overlaps
`min high - max low` exactly when all three exceed the tolerance and `none`
otherwise; boxes with a zero overlap on some axis (touching) yield `none` at
the default tolerance; and a box `b` contained in `a` has per-axis overlap
equal to `b`'s own extent. -/
theorem claim_C5_check_overlap_characterization (a b : BoundingBox) (tol : ℚ) :
    ((overlap_x_of a b > tol ∧ overlap_y_of a b > tol ∧ overlap_z_of a b > tol) →
      check_overlap a b tol =
        some (overlap_x_of a b, overlap_y_of a b, overlap_z_of a b)) ∧
    (¬(overlap_x_of a b > tol ∧ overlap_y_of a b > tol ∧ overlap_z_of a b > tol) →
      check_overlap a b tol = none) ∧
    ((overlap_x_of a b = 0 ∨ overlap_y_of a b = 0 ∨ overlap_z_of a b = 0) →
      check_overlap a b default_tolerance = none) ∧
    ((a.low_x ≤ b.low_x ∧ b.high_x ≤ a.high_x ∧ a.low_y ≤ b.low_y ∧
        b.high_y ≤ a.high_y ∧ a.low_z ≤ b.low_z ∧ b.high_z ≤ a.high_z) →
      overlap_x_of a b = b.high_x - b.low_x ∧ overlap_y_of a b = b.high_y - b.low_y ∧
        overlap_z_of a b = b.high_z - b.low_z) := by
  refine ⟨?_, ?_, ?_, ?_⟩
  · intro h
    simp only [check_overlap]
    rw [if_pos h]
  · intro h
    simp only [check_overlap]
    rw [if_neg h]
  · intro h
    rcases h with h | h | h
    · exact check_overlap_none_x a b default_tolerance
        (by rw [h]; norm_num [default_tolerance])
    · exact check_overlap_none_y a b default_tolerance
        (by rw [h]; norm_num [default_tolerance])
    · exact check_overlap_none_z a b default_tolerance
        (by rw [h]; norm_num [default_tolerance])
  · rintro ⟨h1, h2, h3, h4, h5, h6⟩
    refine ⟨?_, ?_, ?_⟩
    · rw [overlap_x_of, min_eq_right h2, max_eq_right h1]
    · rw [overlap_y_of, min_eq_right h4, max_eq_right h3]
    · rw [overlap_z_of, min_eq_right h6, max_eq_right h5]

/-- Witness for C5: the touching-boxes clause at `[0,1]` and `[1,2]` on X. -/
theorem claim_C5_witness :
    (overlap_x_of ⟨0, 0, 0, 1, 1, 1⟩ ⟨1, 0, 0, 2, 1, 1⟩ = 0 ∨
      overlap_y_of ⟨0, 0, 0, 1, 1, 1⟩ ⟨1, 0, 0, 2, 1, 1⟩ = 0 ∨
      overlap_z_of ⟨0, 0, 0, 1, 1, 1⟩ ⟨1, 0, 0, 2, 1, 1⟩ = 0) ∧
    check_overlap ⟨0, 0, 0, 1, 1, 1⟩ ⟨1, 0, 0, 2, 1, 1⟩ default_tolerance = none :=
  ⟨Or.inl (by norm_num [overlap_x_of, min_def, max_def]),
   (claim_C5_check_overlap_characterization ⟨0, 0, 0, 1, 1, 1⟩ ⟨1, 0, 0, 2, 1, 1⟩
      default_tolerance).2.2.1
    (Or.inl (by norm_num [overlap_x_of, min_def, max_def]))⟩

/-- C6: `get_world_aabb` returns the componentwise min and max over the
transformed 8 corners, so every transformed corner lies inside the returned
box on each axis (the result never under-approximates). -/
theorem claim_C6_world_aabb_encloses_corners (b : BoundingBox) (t : List ℚ)
    (p : ℚ × ℚ × ℚ) (hp : p ∈ corners b) :
    (get_world_aabb b t).low_x ≤ (transform_point t p).1 ∧
    (transform_point t p).1 ≤ (get_world_aabb b t).high_x ∧
    (get_world_aabb b t).low_y ≤ (transform_point t p).2.1 ∧
    (transform_point t p).2.1 ≤ (get_world_aabb b t).high_y ∧
    (get_world_aabb b t).low_z ≤ (transform_point t p).2.2 ∧
    (transform_point t p).2.2 ≤ (get_world_aabb b t).high_z := by
  have hmem : transform_point t p ∈ (corners b).map (fun c => transform_point t c) :=
    List.mem_map_of_mem _ hp
  simp only [get_world_aabb]
  refine ⟨?_, ?_, ?_, ?_, ?_, ?_⟩
  · exact list_min_le_of_mem _ _ (List.mem_map_of_mem _ hmem)
  · exact le_list_max_of_mem _ _ (List.mem_map_of_mem _ hmem)
  · exact list_min_le_of_mem _ _ (List.mem_map_of_mem _ hmem)
  · exact le_list_max_of_mem _ _ (List.mem_map_of_mem _ hmem)
  · exact list_min_le_of_mem _ _ (List.mem_map_of_mem _ hmem)
  · exact le_list_max_of_mem _ _ (List.mem_map_of_mem _ hmem)

/-- Witness for C6 at a concrete box, transform and corner. -/
theorem claim_C6_witness :
    ((0 : ℚ), (0 : ℚ), (0 : ℚ)) ∈ corners ⟨0, 0, 0, 1, 2, 3⟩ ∧
    ((get_world_aabb ⟨0, 0, 0, 1, 2, 3⟩ identity_transform).low_x ≤
        (transform_point identity_transform (0, 0, 0)).1 ∧
      (transform_point identity_transform (0, 0, 0)).1 ≤
        (get_world_aabb ⟨0, 0, 0, 1, 2, 3⟩ identity_transform).high_x ∧
      (get_world_aabb ⟨0, 0, 0, 1, 2, 3⟩ identity_transform).low_y ≤
        (transform_point identity_transform (0, 0, 0)).2.1 ∧
      (transform_point identity_transform (0, 0, 0)).2.1 ≤
        (get_world_aabb ⟨0, 0, 0, 1, 2, 3⟩ identity_transform).high_y ∧
      (get_world_aabb ⟨0, 0, 0, 1, 2, 3⟩ identity_transform).low_z ≤
        (transform_point identity_transform (0, 0, 0)).2.2 ∧
      (transform_point identity_transform (0, 0, 0)).2.2 ≤
        (get_world_aabb ⟨0, 0, 0, 1, 2, 3⟩ identity_transform).high_z) :=
  ⟨by norm_num [corners],
   claim_C6_world_aabb_encloses_corners ⟨0, 0, 0, 1, 2, 3⟩ identity_transform
     (0, 0, 0) (by norm_num [corners])⟩

/-- Counterexample to C7 as stated: on an inverted box (`low_x > high_x`) the
identity transform is not a no-op, because the componentwise min/max over the
corners re-sorts the bounds. -/
theorem claim_C7_counterexample :
    get_world_aabb ⟨1, 0, 0, 0, 1, 1⟩ identity_transform ≠ ⟨1, 0, 0, 0, 1, 1⟩ := by
  rw [identity_transform_eq]
  intro h
  have hlow : (get_world_aabb ⟨1, 0, 0, 0, 1, 1⟩ (translation_matrix 0 0 0)).low_x = 0 := by
    norm_num [get_world_aabb, corners, transform_point, translation_matrix,
      list_min, min_def]
  rw [h] at hlow
  norm_num at hlow

/-- C7 (amended): for every box whose bounds are ordered (`low ≤ high` on each
axis), `get_world_aabb` with the identity transform returns the box unchanged. -/
theorem claim_C7_identity_noop (b : BoundingBox)
    (hx : b.low_x ≤ b.high_x) (hy : b.low_y ≤ b.high_y) (hz : b.low_z ≤ b.high_z) :
    get_world_aabb b identity_transform = b := by
  rw [identity_transform_eq, get_world_aabb_translation b 0 0 0 hx hy hz]
  simp

/-- Witness for C7 (amended) at a concrete well-formed box. -/
theorem claim_C7_witness :
    ((0 : ℚ) ≤ 1 ∧ (0 : ℚ) ≤ 2 ∧ (0 : ℚ) ≤ 3) ∧
    get_world_aabb ⟨0, 0, 0, 1, 2, 3⟩ identity_transform = ⟨0, 0, 0, 1, 2, 3⟩ :=
  ⟨by norm_num,
   claim_C7_identity_noop ⟨0, 0, 0, 1, 2, 3⟩ (by norm_num) (by norm_num) (by norm_num)⟩

/-- C10: the matrix built by `build_absolute_translation_matrix` has an
identity 3x3 rotation block and last row `[0,0,0,1]`, and extracting its
translation with `get_position_from_transform` returns exactly
`(x*0.0254, y*0.0254, z*0.0254)` meters. -/
theorem claim_C10_translation_round_trip (x y z : ℚ) :
    (build_absolute_translation_matrix x y z).getD 0 0 = 1 ∧
    (build_absolute_translation_matrix x y z).getD 1 0 = 0 ∧
    (build_absolute_translation_matrix x y z).getD 2 0 = 0 ∧
    (build_absolute_translation_matrix x y z).getD 4 0 = 0 ∧
    (build_absolute_translation_matrix x y z).getD 5 0 = 1 ∧
    (build_absolute_translation_matrix x y z).getD 6 0 = 0 ∧
    (build_absolute_translation_matrix x y z).getD 8 0 = 0 ∧
    (build_absolute_translation_matrix x y z).getD 9 0 = 0 ∧
    (build_absolute_translation_matrix x y z).getD 10 0 = 1 ∧
    (build_absolute_translation_matrix x y z).getD 12 0 = 0 ∧
    (build_absolute_translation_matrix x y z).getD 13 0 = 0 ∧
    (build_absolute_translation_matrix x y z).getD 14 0 = 0 ∧
    (build_absolute_translation_matrix x y z).getD 15 0 = 1 ∧
    get_position_from_transform (build_absolute_translation_matrix x y z) =
      (x * (254 / 10000), y * (254 / 10000), z * (254 / 10000)) := by
  refine ⟨rfl, rfl, rfl, rfl, rfl, rfl, rfl, rfl, rfl, rfl, rfl, rfl, rfl, ?_⟩
  norm_num [get_position_from_transform, build_absolute_translation_matrix,
    INCHES_TO_METERS]

/-- C8: `check_assembly_interference` checks every unordered pair of resolved
instances exactly once: `total_pairs_checked = n*(n-1)/2` and
`total_instances = n` for `n` the number of instances resolving to a world
AABB, except in the fewer-than-2-raw-instances early return, where
`total_instances` is the raw count and zero pairs are checked. -/
theorem claim_C8_pair_counts (fetch : CacheKey → Option BoundingBox)
    (doc : String) (asm : AssemblyData) :
    (asm.instances.length < 2 →
      (check_assembly_interference fetch doc asm).1.total_instances =
          asm.instances.length ∧
        (check_assembly_interference fetch doc asm).1.total_pairs_checked = 0) ∧
    (2 ≤ asm.instances.length →
      (check_assembly_interference fetch doc asm).1.total_instances =
          (resolve_world_bboxes (build_bbox_cache fetch doc asm.instances).cache
            (build_occurrence_transforms asm.occurrences) doc asm.instances).length ∧
        (check_assembly_interference fetch doc asm).1.total_pairs_checked =
          (resolve_world_bboxes (build_bbox_cache fetch doc asm.instances).cache
              (build_occurrence_transforms asm.occurrences) doc asm.instances).length *
            ((resolve_world_bboxes (build_bbox_cache fetch doc asm.instances).cache
              (build_occurrence_transforms asm.occurrences) doc asm.instances).length - 1) /
            2) := by
  constructor
  · intro h
    simp [check_assembly_interference, h]
  · intro h
    have hnot : ¬ asm.instances.length < 2 := not_lt.mpr h
    constructor
    · simp [check_assembly_interference, hnot]
    · simp only [check_assembly_interference, if_neg hnot]
      rw [← Nat.choose_two_right, ← length_all_pairs]

/-- Witness for C8 on a two-instance assembly with succeeding fetches. -/
theorem claim_C8_witness :
    2 ≤ sample_asm_two.instances.length ∧
    ((check_assembly_interference sample_fetch_ok "d" sample_asm_two).1.total_instances =
        (resolve_world_bboxes
          (build_bbox_cache sample_fetch_ok "d" sample_asm_two.instances).cache
          (build_occurrence_transforms sample_asm_two.occurrences) "d"
          sample_asm_two.instances).length ∧
      (check_assembly_interference sample_fetch_ok "d" sample_asm_two).1.total_pairs_checked =
        (resolve_world_bboxes
            (build_bbox_cache sample_fetch_ok "d" sample_asm_two.instances).cache
            (build_occurrence_transforms sample_asm_two.occurrences) "d"
            sample_asm_two.instances).length *
          ((resolve_world_bboxes
            (build_bbox_cache sample_fetch_ok "d" sample_asm_two.instances).cache
            (build_occurrence_transforms sample_asm_two.occurrences) "d"
            sample_asm_two.instances).length - 1) / 2) :=
  ⟨by decide,
   (claim_C8_pair_counts sample_fetch_ok "d" sample_asm_two).2 (by decide)⟩

/-- C9: `align_to_face` fails with a validation error carrying the offending
value exactly when the lowercased/trimmed face is invalid or the source or
target instance id is absent; in each such case the mutating
`transform_occurrences` call is never made, and for an invalid face no
external call of any kind is made. -/
theorem claim_C9_align_validation (fetch : CacheKey → Option BoundingBox)
    (doc : String) (asm : AssemblyData) (sid tid face : String) :
    (py_lower_strip face ∉ FACE_NAMES →
      align_to_face fetch doc asm sid tid face =
        (.error (.invalidFace (py_lower_strip face)), [])) ∧
    (py_lower_strip face ∈ FACE_NAMES →
      find_instance asm.instances sid = none →
      (align_to_face fetch doc asm sid tid face).1 = .error (.sourceNotFound sid) ∧
      (align_to_face fetch doc asm sid tid face).2 = [.getAssembly] ∧
      ApiEvent.transformOcc ∉ (align_to_face fetch doc asm sid tid face).2) ∧
    (py_lower_strip face ∈ FACE_NAMES →
      (find_instance asm.instances sid).isSome = true →
      find_instance asm.instances tid = none →
      (align_to_face fetch doc asm sid tid face).1 = .error (.targetNotFound tid) ∧
      (align_to_face fetch doc asm sid tid face).2 = [.getAssembly] ∧
      ApiEvent.transformOcc ∉ (align_to_face fetch doc asm sid tid face).2) ∧
    (py_lower_strip face ∈ FACE_NAMES →
      (find_instance asm.instances sid).isSome = true →
      (find_instance asm.instances tid).isSome = true →
      result_is_validation_error (align_to_face fetch doc asm sid tid face).1 = false) := by
  refine ⟨?_, ?_, ?_, ?_⟩
  · intro h
    simp only [align_to_face, if_pos h]
  · intro hf hs
    have hnot : ¬ py_lower_strip face ∉ FACE_NAMES := by simpa using hf
    simp [align_to_face, if_neg hnot, hs]
  · intro hf hsome ht
    have hnot : ¬ py_lower_strip face ∉ FACE_NAMES := by simpa using hf
    obtain ⟨si, hsi⟩ := Option.isSome_iff_exists.mp hsome
    simp [align_to_face, if_neg hnot, hsi, ht]
  · intro hf hsome htome
    have hnot : ¬ py_lower_strip face ∉ FACE_NAMES := by simpa using hf
    obtain ⟨si, hsi⟩ := Option.isSome_iff_exists.mp hsome
    obtain ⟨ti, hti⟩ := Option.isSome_iff_exists.mp htome
    simp only [align_to_face, if_neg hnot, hsi, hti]
    cases hfs : fetch (instance_cache_key doc si) with
    | none => simp [result_is_validation_error]
    | some sb =>
      cases hft : fetch (instance_cache_key doc ti) with
      | none => simp [result_is_validation_error]
      | some tb =>
        obtain ⟨q, hq⟩ := compute_aligned_position_isOk sb
          (get_position_from_transform
            ((dict_lookup sid (build_occurrence_transforms asm.occurrences)).getD
              identity_transform))
          (get_world_aabb tb
            ((dict_lookup tid (build_occurrence_transforms asm.occurrences)).getD
              identity_transform))
          (py_lower_strip face) hf
        simp [hq, result_is_validation_error]

/-- Witness for C9: an invalid face is rejected with no external call. -/
theorem claim_C9_witness :
    py_lower_strip "diagonal" ∉ FACE_NAMES ∧
    align_to_face sample_fetch_ok "d" sample_asm_two "i1" "i2" "diagonal" =
      (.error (.invalidFace (py_lower_strip "diagonal")), []) :=
  ⟨by decide,
   (claim_C9_align_validation sample_fetch_ok "d" sample_asm_two "i1" "i2"
      "diagonal").1 (by decide)⟩

end OnshapeMCP
